import Mathlib

/-!
A shallow embedding of the Bolt driver module `neo4j/session.py`
(classes `Driver`, `Session`, `Transaction`, `Result`, `Record`),
with the behaviour of the `connection` module modelled from the
specification where that module's source is not available.

The development is split into layers:

* `Record` — field lookup by position, by name and by attribute.
* The transaction layer — `SessionState` / `TxState` model the
  `Session` and `Transaction` state machines; `Session.run` is
  abstracted here as appending the statement text to the ordered
  log of statements sent on the connection.
* The message layer — `Session.run`'s interaction with the
  connection: appending RUN and PULL_ALL, sending, and the
  fetch loop that dispatches incoming SUCCESS / RECORD / FAILURE /
  IGNORED messages to the pending response handlers.
* URL parsing and `Driver.__init__`.
* UTF-8 statement normalisation (`bytes.decode("UTF-8")`).
-/

set_option maxRecDepth 4096

namespace Neo4j

/-- Errors raised by `Record` lookups: `AttributeError` (unknown field
name), `IndexError` (position out of range) and `TypeError`. -/
inductive LookupError : Type
  | attributeError (key : String)
  | indexError
  | typeError
  deriving DecidableEq, Repr

instance instDecidableEqExceptNeo4j {ε α : Type} [DecidableEq ε] [DecidableEq α] :
    DecidableEq (Except ε α) := fun a b =>
  match a, b with
  | Except.ok x, Except.ok y =>
    if h : x = y then isTrue (by rw [h])
    else isFalse (by intro hc; cases hc; exact h rfl)
  | Except.error x, Except.error y =>
    if h : x = y then isTrue (by rw [h])
    else isFalse (by intro hc; cases hc; exact h rfl)
  | Except.ok _, Except.error _ => isFalse (by intro hc; cases hc)
  | Except.error _, Except.ok _ => isFalse (by intro hc; cases hc)

/-- `Record` from `session.py`: field names (`__keys__`) paired with the
stored values (`__values__`). Values are kept generic in `α`. -/
structure Record (α : Type) : Type where
  keys : List String
  values : List α
  deriving DecidableEq, Repr

/-- Python's `list.index`: the index of the first occurrence of `item`,
or `none` where Python raises `ValueError`. -/
def listIndex (item : String) : List String → Option Nat
  | [] => none
  | k :: ks => if k == item then some 0 else (listIndex item ks).map (· + 1)

/-- `Record.__getattr__`: find the first index of `item` in `__keys__`
and return the value stored at that index; an absent key raises
`AttributeError`. -/
def Record.getattr {α : Type} (r : Record α) (item : String) : Except LookupError α :=
  match listIndex item r.keys with
  | some i =>
    match r.values[i]? with
    | some v => Except.ok v
    | none => Except.error LookupError.indexError
  | none => Except.error (LookupError.attributeError item)

/-- `Record.__getitem__` on an integer index: `getattr(self, self.__keys__[item])`;
an out-of-range position raises `IndexError`. -/
def Record.getitem {α : Type} (r : Record α) (i : Nat) : Except LookupError α :=
  match r.keys[i]? with
  | some k => r.getattr k
  | none => Except.error LookupError.indexError

/-- `Record.__getitem__` on a string key: `getattr(self, item)`. -/
def Record.getitemKey {α : Type} (r : Record α) (k : String) : Except LookupError α :=
  r.getattr k

/-- Python's `list.index` on a duplicate-free list locates position `i`
when given the element stored at position `i`. -/
theorem listIndex_get_of_nodup : ∀ (keys : List String) (i : Nat) (h : i < keys.length),
    keys.Nodup → listIndex keys[i] keys = some i
  | k :: ks, 0, _, _ => by simp [listIndex]
  | k :: ks, i + 1, h, hnd => by
    have hi : i < ks.length := by simpa using h
    have hmem : ks[i] ∈ ks := List.getElem_mem hi
    have hne : k ≠ ks[i] := by
      intro he
      exact (List.nodup_cons.mp hnd).1 (he ▸ hmem)
    have ih := listIndex_get_of_nodup ks i hi (List.nodup_cons.mp hnd).2
    simp [listIndex, hne, ih]

/-- C1 counterexample: with the duplicate key list `["a", "a"]` and values
`[0, 1]`, positional lookup at index 1 goes through the field name `"a"`,
whose first occurrence is index 0, and returns the value stored at
position 0 — not the value stored at position 1 as the claim requires. -/
theorem record_duplicate_keys_counterexample :
    (Record.mk ["a", "a"] [(0 : Nat), 1]).getitem 1 = Except.ok 0
    ∧ (Record.mk ["a", "a"] [(0 : Nat), 1]).getitem 1 ≠ Except.ok 1 := by
  decide

/-- C1 (amended): for every Record built from a duplicate-free key list
and a value list, and every index `i` in range, lookup by position
(`record[i]`), by name (`record[keys[i]]`) and by attribute
(`record.<keys[i]>`) agree, all returning the value stored at
position `i`. -/
theorem record_lookup_agree {α : Type} (keys : List String) (values : List α)
    (hnd : keys.Nodup) (i : Nat) (hik : i < keys.length) (hiv : i < values.length) :
    (Record.mk keys values).getitem i = Except.ok (values.get ⟨i, hiv⟩)
    ∧ (Record.mk keys values).getitemKey (keys.get ⟨i, hik⟩) = Except.ok (values.get ⟨i, hiv⟩)
    ∧ (Record.mk keys values).getattr (keys.get ⟨i, hik⟩) = Except.ok (values.get ⟨i, hiv⟩) := by
  have hga : (Record.mk keys values).getattr (keys.get ⟨i, hik⟩)
      = Except.ok (values.get ⟨i, hiv⟩) := by
    unfold Record.getattr
    simp only [List.get_eq_getElem]
    rw [listIndex_get_of_nodup keys i hik hnd]
    simp [List.getElem?_eq_getElem hiv]
  refine ⟨?_, hga, hga⟩
  unfold Record.getitem
  simp only [List.getElem?_eq_getElem hik]
  simpa using hga

/-- C1 witness: the amended lookup-agreement theorem applied to the
concrete record with keys `["x", "y"]` and values `[5, 7]` at index 1. -/
theorem record_lookup_agree_witness :
    (["x", "y"] : List String).Nodup
    ∧ ((Record.mk ["x", "y"] [(5 : Nat), 7]).getitem 1
          = Except.ok (([(5 : Nat), 7]).get ⟨1, by decide⟩)
        ∧ (Record.mk ["x", "y"] [(5 : Nat), 7]).getitemKey ((["x", "y"] : List String).get ⟨1, by decide⟩)
          = Except.ok (([(5 : Nat), 7]).get ⟨1, by decide⟩)
        ∧ (Record.mk ["x", "y"] [(5 : Nat), 7]).getattr ((["x", "y"] : List String).get ⟨1, by decide⟩)
          = Except.ok (([(5 : Nat), 7]).get ⟨1, by decide⟩)) :=
  ⟨by decide, record_lookup_agree ["x", "y"] [5, 7] (by decide) 1 (by decide) (by decide)⟩

/-- Python exceptions relevant to the session/transaction state machine. -/
inductive PyError : Type
  | assertionError
  | valueError (msg : String)
  deriving DecidableEq, Repr

/-- State of a `Transaction` object: its `success` and `closed` flags
(both default to `False` in `session.py`). -/
structure TxState : Type where
  success : Bool := false
  closed : Bool := false
  deriving DecidableEq, Repr

/-- State of a `Session` at the transaction layer: the transaction slot
(`self.transaction`), the ordered log of statements run on the
connection, and whether `connection.close()` has been called.
`Session.run` is abstracted at this layer as appending the statement
text to `sent`; its message-level behaviour is modelled separately
below. -/
structure SessionState : Type where
  transaction : Option TxState := none
  sent : List String := []
  connectionClosed : Bool := false
  deriving DecidableEq, Repr

/-- `Session.run` viewed at the transaction layer: the statement is sent
on the connection (appended to the log). -/
def SessionState.run (s : SessionState) (stmt : String) : SessionState :=
  { s with sent := s.sent ++ [stmt] }

/-- `Session.close`: `self.connection.close()` — nothing else. -/
def SessionState.close (s : SessionState) : SessionState :=
  { s with connectionClosed := true }

/-- `Session.__exit__`: ignores the exception information and calls
`self.close()`. -/
def SessionState.exitWith (_exc : Option PyError) (s : SessionState) : SessionState :=
  SessionState.close s

/-- `Session.new_transaction`: `assert not self.transaction`, then
construct a `Transaction` (whose `__init__` runs `BEGIN` on the session)
and store it in the slot. Returns the raised error (if any), the new
transaction object (if created) and the resulting session state. -/
def SessionState.newTransaction (s : SessionState) :
    Option PyError × Option TxState × SessionState :=
  match s.transaction with
  | some _ => (some PyError.assertionError, none, s)
  | none =>
    let s1 := SessionState.run s ("BEGIN")
    let t : TxState := {}
    (none, some t, { s1 with transaction := some t })

/-- `Transaction.close`: `assert not self.closed`; run `COMMIT` when the
`success` flag is set and `ROLLBACK` otherwise; then mark the
transaction closed and clear the owning session's transaction slot.
On the failed assertion the state is left unchanged. -/
def TxState.close (t : TxState) (s : SessionState) :
    Option PyError × TxState × SessionState :=
  if t.closed then (some PyError.assertionError, t, s)
  else
    let s1 := SessionState.run s (if t.success then "COMMIT" else "ROLLBACK")
    (none, { t with closed := true }, { s1 with transaction := none })

/-- `Transaction.commit`: set the `success` flag, then close. -/
def TxState.commit (t : TxState) (s : SessionState) :
    Option PyError × TxState × SessionState :=
  TxState.close { t with success := true } s

/-- `Transaction.rollback`: clear the `success` flag, then close. -/
def TxState.rollback (t : TxState) (s : SessionState) :
    Option PyError × TxState × SessionState :=
  TxState.close { t with success := false } s

/-- `Transaction.run`: `assert not self.closed`, then delegate to
`Session.run`. -/
def TxState.run (t : TxState) (s : SessionState) (stmt : String) :
    Option PyError × SessionState :=
  if t.closed then (some PyError.assertionError, s)
  else (none, SessionState.run s stmt)

/-- What the body of a `with session.new_transaction() as tx:` block did
to the transaction: nothing, an explicit `tx.commit()`, or an explicit
`tx.rollback()`. -/
inductive BodyAct : Type
  | pass
  | callCommit
  | callRollback
  deriving DecidableEq, Repr

/-- How the body of the `with` block exited: normal completion, an early
return, or a propagated exception. -/
inductive BodyExit : Type
  | normal
  | earlyReturn
  | raised (e : PyError)
  deriving DecidableEq, Repr

/-- Run the body action against the transaction object. -/
def runBody : BodyAct → TxState → SessionState → Option PyError × TxState × SessionState
  | BodyAct.pass, t, s => (none, t, s)
  | BodyAct.callCommit, t, s => TxState.commit t s
  | BodyAct.callRollback, t, s => TxState.rollback t s

/-- A `with session.new_transaction() as tx:` block: `new_transaction`
creates the transaction, the body runs, and on every exit path
(normal, early return, or exception) `Transaction.__exit__` calls
`Transaction.close`. An exception raised by `__exit__` itself takes
precedence over the body's exception, as in Python. -/
def withTransaction (act : BodyAct) (bexit : BodyExit) (s0 : SessionState) :
    Option PyError × SessionState :=
  match SessionState.newTransaction s0 with
  | (some e, _, s1) => (some e, s1)
  | (none, none, s1) => (some PyError.assertionError, s1)
  | (none, some t, s1) =>
    let r := runBody act t s1
    let exc : Option PyError :=
      match r.1 with
      | some e => some e
      | none =>
        match bexit with
        | BodyExit.raised e => some e
        | _ => none
    let rexit := TxState.close r.2.1 r.2.2
    (match rexit.1 with | some e => some e | none => exc, rexit.2.2)

/-- The sub-sequence of COMMIT / ROLLBACK messages in a statement log. -/
def commitRollbackSent (msgs : List String) : List String :=
  msgs.filter (fun m => m == "COMMIT" || m == "ROLLBACK")

/-- C2: a Session holds at most one open Transaction. When the
transaction slot is empty, `new_transaction` runs `BEGIN`, creates a
fresh transaction and stores it; when a transaction is already in the
slot, `new_transaction` raises an assertion-style programming error and
leaves the session — including the existing transaction — unchanged. -/
theorem session_single_open_transaction (s : SessionState) (t : TxState) :
    SessionState.newTransaction { s with transaction := none }
      = (none, some ({} : TxState),
          { s with transaction := some ({} : TxState), sent := s.sent ++ ["BEGIN"] })
    ∧ SessionState.newTransaction { s with transaction := some t }
      = (some PyError.assertionError, none, { s with transaction := some t }) := by
  constructor <;> rfl

/-- C3: for every Transaction used as a `with`-block resource, on every
exit path (normal completion, early return, or propagated exception)
exactly one of COMMIT / ROLLBACK is sent, ROLLBACK unless `commit()` was
explicitly requested; and `commit()` sets the `success` flag and marks
the transaction closed. -/
theorem transaction_with_block_exactly_one_finalizer (act : BodyAct) (bexit : BodyExit)
    (s0 : SessionState) (h : s0.transaction = none) :
    commitRollbackSent ((withTransaction act bexit s0).2.sent)
      = commitRollbackSent s0.sent
          ++ [if act = BodyAct.callCommit then "COMMIT" else "ROLLBACK"]
    ∧ (∀ (t : TxState) (s : SessionState),
        (TxState.commit t s).2.1.success = true ∧ (TxState.commit t s).2.1.closed = true) := by
  constructor
  · cases act <;> cases bexit <;>
      simp [withTransaction, SessionState.newTransaction, h, runBody, TxState.commit,
        TxState.rollback, TxState.close, SessionState.run, commitRollbackSent,
        List.filter_append]
  · intro t s
    by_cases hc : t.closed <;> simp [TxState.commit, TxState.close, hc]

/-- C3 witness: the `with`-block theorem applied to a fresh session with
a body that performs no explicit commit or rollback and exits normally. -/
theorem transaction_with_block_exactly_one_finalizer_witness :
    ({ transaction := none, sent := [], connectionClosed := false } : SessionState).transaction = none
    ∧ (commitRollbackSent ((withTransaction BodyAct.pass BodyExit.normal
          { transaction := none, sent := [], connectionClosed := false }).2.sent)
        = commitRollbackSent ({ transaction := none, sent := [], connectionClosed := false } : SessionState).sent
            ++ [if BodyAct.pass = BodyAct.callCommit then "COMMIT" else "ROLLBACK"]
      ∧ ∀ (t : TxState) (s : SessionState),
          (TxState.commit t s).2.1.success = true ∧ (TxState.commit t s).2.1.closed = true) :=
  ⟨rfl, transaction_with_block_exactly_one_finalizer BodyAct.pass BodyExit.normal _ rfl⟩

/-- C10: `Transaction.close` on a not-yet-closed transaction raises no
error, sends exactly one of COMMIT (success branch) or ROLLBACK
(otherwise), marks the transaction closed and empties the owning
session's transaction slot; afterwards `new_transaction` succeeds again
and `Transaction.run` on the closed transaction is rejected with an
assertion-style programming error. -/
theorem transaction_close_resets_state (t : TxState) (s : SessionState)
    (h : t.closed = false) :
    (TxState.close t s).1 = none
    ∧ (TxState.close t s).2.1.closed = true
    ∧ (TxState.close t s).2.2.transaction = none
    ∧ (TxState.close t s).2.2.sent
        = s.sent ++ [if t.success then "COMMIT" else "ROLLBACK"]
    ∧ (SessionState.newTransaction (TxState.close t s).2.2).1 = none
    ∧ ∀ stmt : String, (TxState.run (TxState.close t s).2.1 (TxState.close t s).2.2 stmt).1
        = some PyError.assertionError := by
  simp [TxState.close, h, SessionState.run, SessionState.newTransaction, TxState.run]

/-- C10 witness: `Transaction.close` applied to a concrete open
transaction (ROLLBACK branch) inside a session that has sent BEGIN. -/
theorem transaction_close_resets_state_witness :
    ({ success := false, closed := false } : TxState).closed = false
    ∧ ((TxState.close { success := false, closed := false } { transaction := some { success := false, closed := false }, sent := ["BEGIN"], connectionClosed := false }).1 = none
      ∧ (TxState.close { success := false, closed := false } { transaction := some { success := false, closed := false }, sent := ["BEGIN"], connectionClosed := false }).2.1.closed = true
      ∧ (TxState.close { success := false, closed := false } { transaction := some { success := false, closed := false }, sent := ["BEGIN"], connectionClosed := false }).2.2.transaction = none
      ∧ (TxState.close { success := false, closed := false } { transaction := some { success := false, closed := false }, sent := ["BEGIN"], connectionClosed := false }).2.2.sent
          = ({ transaction := some { success := false, closed := false }, sent := ["BEGIN"], connectionClosed := false } : SessionState).sent
              ++ [if ({ success := false, closed := false } : TxState).success then "COMMIT" else "ROLLBACK"]
      ∧ (SessionState.newTransaction (TxState.close { success := false, closed := false } { transaction := some { success := false, closed := false }, sent := ["BEGIN"], connectionClosed := false }).2.2).1 = none
      ∧ ∀ stmt : String,
          (TxState.run (TxState.close { success := false, closed := false } { transaction := some { success := false, closed := false }, sent := ["BEGIN"], connectionClosed := false }).2.1
            (TxState.close { success := false, closed := false } { transaction := some { success := false, closed := false }, sent := ["BEGIN"], connectionClosed := false }).2.2 stmt).1
          = some PyError.assertionError) :=
  ⟨rfl, transaction_close_resets_state { success := false, closed := false }
    { transaction := some { success := false, closed := false }, sent := ["BEGIN"], connectionClosed := false } rfl⟩

/-- C5 counterexample: closing a session whose transaction slot holds an
open transaction closes the connection but does not roll the
transaction back: no ROLLBACK is sent and the slot still holds the open
transaction, contradicting the claim that `close()` first rolls back
any open Transaction. -/
theorem session_close_no_rollback_counterexample :
    (SessionState.close { transaction := some {}, sent := ["BEGIN"], connectionClosed := false }).connectionClosed = true
    ∧ (SessionState.close { transaction := some {}, sent := ["BEGIN"], connectionClosed := false }).transaction
        = some { success := false, closed := false }
    ∧ (SessionState.close { transaction := some {}, sent := ["BEGIN"], connectionClosed := false }).sent = ["BEGIN"]
    ∧ ("ROLLBACK" : String) ∉ (SessionState.close { transaction := some {}, sent := ["BEGIN"], connectionClosed := false }).sent := by
  decide

/-- C5 (amended): `Session.close` — also reached via `Session.__exit__` —
only closes the underlying connection: no statement is sent and any
open Transaction in the slot is left untouched. -/
theorem session_close_releases_connection_only (s : SessionState) (e : Option PyError) :
    (SessionState.close s).connectionClosed = true
    ∧ (SessionState.close s).transaction = s.transaction
    ∧ (SessionState.close s).sent = s.sent
    ∧ SessionState.exitWith e s = SessionState.close s := by
  simp [SessionState.close, SessionState.exitWith]

/-- A protocol value carried in a RECORD message. Record values are
modelled post-hydration (the `typesystem` module is outside the sources
in scope and no claim concerns hydration). -/
inductive Value : Type
  | null
  | bool (b : Bool)
  | int (n : Int)
  | text (s : String)
  deriving DecidableEq, Repr

/-- Response metadata: the `fields` entry consumed by `Result.on_header`,
plus the code / message pair carried by a FAILURE. -/
structure Metadata : Type where
  fields : List String := []
  code : String := ""
  message : String := ""
  deriving DecidableEq, Repr

/-- Modelled from the spec: the response messages delivered on the
connection (`connection` module not under the sources in scope):
SUCCESS(metadata), RECORD(values), FAILURE(metadata), IGNORED. -/
inductive InMsg : Type
  | success (meta : Metadata)
  | record (values : List Value)
  | failure (meta : Metadata)
  | ignored
  deriving DecidableEq, Repr

/-- Operations `Session.run` performs on the connection, in order:
appending the RUN message, appending the PULL_ALL message, flushing the
outgoing buffer (`send`), and fetching one response message
(`fetch_next`). -/
inductive ConnOp : Type
  | appendRun (stmt : String) (params : List (String × Value))
  | appendPullAll
  | send
  | fetch
  deriving DecidableEq, Repr

/-- The `Result` object as filled in by its handlers: `keys` is set by
`on_header` from the SUCCESS metadata of the RUN response, and
`records` collects the `Record`s appended by `on_record`. -/
structure ResultData : Type where
  keys : Option (List String) := none
  records : List (Record Value) := []
  deriving DecidableEq, Repr

/-- Outcome of `Session.run`: a materialized result, a raised
`CypherError` carrying the server-provided FAILURE metadata, or the
blocked state reached when the connection yields no further message
before PULL_ALL completes (`fetch_next` would block forever). -/
inductive RunOutcome : Type
  | ok (result : ResultData)
  | cypherError (meta : Metadata)
  | blocked
  deriving DecidableEq, Repr

/-- Modelled from the spec: the fetch loop of `Session.run`. Responses
complete in submission order, so incoming messages answer the RUN
response first and then the PULL_ALL response (`runComplete` records
whether the RUN response has completed). Dispatch per message:
RECORD invokes `on_record` (only set on the PULL_ALL response),
SUCCESS invokes `on_header` / `on_footer` and completes the pending
response, FAILURE invokes `on_failure`, which raises `CypherError`
with the metadata, and IGNORED completes the pending response without
a callback. Returns the outcome, the unconsumed incoming messages and
the operation trace extended with one `fetch` per consumed message. -/
def fetchLoop (runComplete : Bool) (rd : ResultData) (ops : List ConnOp) :
    List InMsg → RunOutcome × List InMsg × List ConnOp
  | [] => (RunOutcome.blocked, [], ops)
  | m :: rest =>
    if runComplete then
      match m with
      | InMsg.record vs =>
        fetchLoop true
          { rd with records := rd.records ++ [Record.mk (rd.keys.getD []) vs] }
          (ops ++ [ConnOp.fetch]) rest
      | InMsg.success _ => (RunOutcome.ok rd, rest, ops ++ [ConnOp.fetch])
      | InMsg.failure meta => (RunOutcome.cypherError meta, rest, ops ++ [ConnOp.fetch])
      | InMsg.ignored => (RunOutcome.ok rd, rest, ops ++ [ConnOp.fetch])
    else
      match m with
      | InMsg.record _ => fetchLoop false rd (ops ++ [ConnOp.fetch]) rest
      | InMsg.success meta =>
        fetchLoop true { rd with keys := some meta.fields } (ops ++ [ConnOp.fetch]) rest
      | InMsg.failure meta => (RunOutcome.cypherError meta, rest, ops ++ [ConnOp.fetch])
      | InMsg.ignored => fetchLoop true rd (ops ++ [ConnOp.fetch]) rest

/-- `Session.run` at the message level: append RUN with the statement
and parameters, append PULL_ALL, flush both together (`send`), then
fetch responses until the PULL_ALL response is complete. `incoming` is
the sequence of response messages the server delivers. -/
def Session.run (stmt : String) (params : List (String × Value)) (incoming : List InMsg) :
    RunOutcome × List InMsg × List ConnOp :=
  fetchLoop false {}
    [ConnOp.appendRun stmt params, ConnOp.appendPullAll, ConnOp.send] incoming

/-- The result of Python's `urlparse`, restricted to the parts
`Driver.__init__` reads: scheme, hostname and port. -/
structure ParsedUrl : Type where
  scheme : String := ""
  hostname : Option String := none
  port : Option Nat := none
  deriving DecidableEq, Repr

/-- Models the Python standard library `urlparse` on URLs of the shape
`scheme://host[:port]`; anything else parses with an empty scheme and
no host or port. -/
def urlparse (url : String) : ParsedUrl :=
  match url.splitOn ("://") with
  | [s, rest] =>
    match rest.splitOn (":") with
    | [h] => { scheme := s, hostname := some h, port := none }
    | [h, p] => { scheme := s, hostname := some h, port := p.toNat? }
    | _ => { scheme := s, hostname := some rest, port := none }
  | _ => { scheme := "", hostname := none, port := none }

/-- The `Driver` object: the URL it was built from and the stored host
and port. -/
structure Driver : Type where
  url : String
  host : Option String
  port : Option Nat
  deriving DecidableEq, Repr

/-- A network event: the only one the driver can cause is `connect`,
issued by `Driver.session`, never by `Driver.__init__`. -/
inductive NetEvent : Type
  | connectTo (host : Option String) (port : Option Nat)
  deriving DecidableEq, Repr

/-- `Driver.__init__` (also reached via `GraphDatabase.driver`): parse
the URL; a `bolt` scheme stores the parsed hostname and port, any other
scheme raises `ValueError("Unsupported URL scheme: ...")`. The second
component is the list of network events caused: none on either branch. -/
def Driver.init (url : String) : Except PyError Driver × List NetEvent :=
  let parsed := urlparse url
  if parsed.scheme = "bolt" then
    (Except.ok { url := url, host := parsed.hostname, port := parsed.port }, [])
  else
    (Except.error (PyError.valueError ("Unsupported URL scheme: " ++ parsed.scheme)), [])

/-- `Driver.session`: connects to the stored host and port — the network
I/O happens here, not at construction. -/
def Driver.session (d : Driver) : List NetEvent :=
  [NetEvent.connectTo d.host d.port]

/-- With the RUN response complete, the fetch loop consumes every RECORD
message up to the terminating SUCCESS, appending one `Record` per
RECORD, and stops exactly at that SUCCESS. -/
theorem fetchLoop_records_success : ∀ (recs : List (List Value)) (rd : ResultData)
    (ops : List ConnOp) (fm : Metadata) (tail : List InMsg),
    fetchLoop true rd ops (recs.map InMsg.record ++ InMsg.success fm :: tail)
      = (RunOutcome.ok
          { rd with records := rd.records ++ recs.map (fun vs => Record.mk (rd.keys.getD []) vs) },
         tail, ops ++ List.replicate (recs.length + 1) ConnOp.fetch)
  | [], rd, ops, fm, tail => by simp [fetchLoop]
  | vs :: recs, rd, ops, fm, tail => by
    rw [List.map_cons, List.cons_append]
    show fetchLoop true { rd with records := rd.records ++ [Record.mk (rd.keys.getD []) vs] }
        (ops ++ [ConnOp.fetch]) (recs.map InMsg.record ++ InMsg.success fm :: tail) = _
    rw [fetchLoop_records_success]
    simp [List.replicate_succ, List.append_assoc]

/-- With the RUN response complete, a FAILURE terminating the record
stream stops the fetch loop at that FAILURE and raises its metadata. -/
theorem fetchLoop_records_failure : ∀ (recs : List (List Value)) (rd : ResultData)
    (ops : List ConnOp) (m : Metadata) (rest : List InMsg),
    fetchLoop true rd ops (recs.map InMsg.record ++ InMsg.failure m :: rest)
      = (RunOutcome.cypherError m, rest, ops ++ List.replicate (recs.length + 1) ConnOp.fetch)
  | [], rd, ops, m, rest => by simp [fetchLoop]
  | vs :: recs, rd, ops, m, rest => by
    rw [List.map_cons, List.cons_append]
    show fetchLoop true { rd with records := rd.records ++ [Record.mk (rd.keys.getD []) vs] }
        (ops ++ [ConnOp.fetch]) (recs.map InMsg.record ++ InMsg.failure m :: rest) = _
    rw [fetchLoop_records_failure]
    simp [List.replicate_succ, List.append_assoc]

/-- The fetch loop only ever extends the operation trace with `fetch`
operations, whatever the incoming messages are. -/
theorem fetchLoop_ops_shape : ∀ (l : List InMsg) (c : Bool) (rd : ResultData) (ops : List ConnOp),
    ∃ n, (fetchLoop c rd ops l).2.2 = ops ++ List.replicate n ConnOp.fetch
  | [], _, _, ops => ⟨0, by simp [fetchLoop]⟩
  | m :: rest, c, rd, ops => by
    cases c with
    | true =>
      cases m with
      | record vs =>
        simp only [fetchLoop]
        obtain ⟨n, hn⟩ := fetchLoop_ops_shape rest true
          { rd with records := rd.records ++ [Record.mk (rd.keys.getD []) vs] }
          (ops ++ [ConnOp.fetch])
        exact ⟨n + 1, by simp [hn, List.replicate_succ]⟩
      | success meta => exact ⟨1, by simp [fetchLoop]⟩
      | failure meta => exact ⟨1, by simp [fetchLoop]⟩
      | ignored => exact ⟨1, by simp [fetchLoop]⟩
    | false =>
      cases m with
      | record vs =>
        simp only [fetchLoop]
        obtain ⟨n, hn⟩ := fetchLoop_ops_shape rest false rd (ops ++ [ConnOp.fetch])
        exact ⟨n + 1, by simp [hn, List.replicate_succ]⟩
      | success meta =>
        simp only [fetchLoop]
        obtain ⟨n, hn⟩ := fetchLoop_ops_shape rest true
          { rd with keys := some meta.fields } (ops ++ [ConnOp.fetch])
        exact ⟨n + 1, by simp [hn, List.replicate_succ]⟩
      | failure meta => exact ⟨1, by simp [fetchLoop]⟩
      | ignored =>
        simp only [fetchLoop]
        obtain ⟨n, hn⟩ := fetchLoop_ops_shape rest true rd (ops ++ [ConnOp.fetch])
        exact ⟨n + 1, by simp [hn, List.replicate_succ]⟩

/-- C4 (amended): `Session.run` is eager, not lazy — it blocks until the
whole record stream has been received. For every header, record
sequence and footer delivered by the server, `run` consumes the stream
exactly through the footer and returns a fully materialized result
containing every record, keyed by the header's field names; exactly one
fetch happens per response message, all before `run` returns. -/
theorem run_materializes_all_records (stmt : String) (params : List (String × Value))
    (hm fm : Metadata) (recs : List (List Value)) (tail : List InMsg) :
    Session.run stmt params (InMsg.success hm :: (recs.map InMsg.record ++ InMsg.success fm :: tail))
      = (RunOutcome.ok
          { keys := some hm.fields, records := recs.map (fun vs => Record.mk hm.fields vs) },
         tail,
         [ConnOp.appendRun stmt params, ConnOp.appendPullAll, ConnOp.send]
           ++ List.replicate (recs.length + 2) ConnOp.fetch) := by
  show fetchLoop false {} _ _ = _
  simp only [fetchLoop]
  rw [fetchLoop_records_success]
  simp [List.replicate_succ, List.append_assoc]

/-- C4 counterexample: on a concrete two-record stream, `Session.run`
returns only after materializing both records and consuming the entire
incoming stream — refuting the claim that records are fetched on demand
as the consumer advances rather than before `run` returns. -/
theorem run_not_lazy_counterexample :
    (Session.run ("RETURN 1") [] [InMsg.success { fields := ["x"] }, InMsg.record [Value.int 1], InMsg.record [Value.int 2], InMsg.success {}]).1
      = RunOutcome.ok { keys := some ["x"], records := [Record.mk ["x"] [Value.int 1], Record.mk ["x"] [Value.int 2]] }
    ∧ (Session.run ("RETURN 1") [] [InMsg.success { fields := ["x"] }, InMsg.record [Value.int 1], InMsg.record [Value.int 2], InMsg.success {}]).2.1 = []
    ∧ ¬ ((match (Session.run ("RETURN 1") [] [InMsg.success { fields := ["x"] }, InMsg.record [Value.int 1], InMsg.record [Value.int 2], InMsg.success {}]).1 with
          | RunOutcome.ok rd => rd.records.length
          | _ => 0) < 2
        ∨ (Session.run ("RETURN 1") [] [InMsg.success { fields := ["x"] }, InMsg.record [Value.int 1], InMsg.record [Value.int 2], InMsg.success {}]).2.1 ≠ []) := by
  decide

/-- C7: every FAILURE delivered while executing a statement is raised
exactly once to the caller of the `run` call that triggered it, carrying
the server-provided metadata, whether the FAILURE answers the RUN
message (first conjunct) or the streaming PULL_ALL message after any
number of records (second conjunct); the loop stops at the FAILURE, so
nothing is swallowed and nothing past it is consumed. -/
theorem run_raises_every_failure (stmt : String) (params : List (String × Value))
    (m hm : Metadata) (recs : List (List Value)) (rest : List InMsg) :
    Session.run stmt params (InMsg.failure m :: rest)
      = (RunOutcome.cypherError m, rest,
         [ConnOp.appendRun stmt params, ConnOp.appendPullAll, ConnOp.send, ConnOp.fetch])
    ∧ Session.run stmt params (InMsg.success hm :: (recs.map InMsg.record ++ InMsg.failure m :: rest))
      = (RunOutcome.cypherError m, rest,
         [ConnOp.appendRun stmt params, ConnOp.appendPullAll, ConnOp.send]
           ++ List.replicate (recs.length + 2) ConnOp.fetch) := by
  constructor
  · show fetchLoop false {} _ _ = _
    simp [fetchLoop]
  · show fetchLoop false {} _ _ = _
    simp only [fetchLoop]
    rw [fetchLoop_records_failure]
    simp [List.replicate_succ, List.append_assoc]

/-- C8: in every call to `Session.run`, the connection trace starts with
appending RUN, then appending PULL_ALL, then the flush (`send`), and
everything after the flush is a response fetch: no response is read
between the two appends or before the flush. -/
theorem run_pipelines_run_and_pull (stmt : String) (params : List (String × Value))
    (incoming : List InMsg) :
    ∃ n, (Session.run stmt params incoming).2.2
      = [ConnOp.appendRun stmt params, ConnOp.appendPullAll, ConnOp.send]
          ++ List.replicate n ConnOp.fetch :=
  fetchLoop_ops_shape incoming false {}
    [ConnOp.appendRun stmt params, ConnOp.appendPullAll, ConnOp.send]

/-- C6: constructing a driver causes no network event on either branch;
a URL whose scheme is not `bolt` fails with a
`ValueError("Unsupported URL scheme: ...")` configuration error, and a
`bolt` URL succeeds, storing the parsed hostname and port. -/
theorem driver_init_scheme_check (url : String) :
    (Driver.init url).2 = []
    ∧ (Driver.init url).1
      = (if (urlparse url).scheme = "bolt"
          then Except.ok { url := url, host := (urlparse url).hostname, port := (urlparse url).port }
          else Except.error
            (PyError.valueError ("Unsupported URL scheme: " ++ (urlparse url).scheme))) := by
  by_cases h : (urlparse url).scheme = "bolt" <;> simp [Driver.init, h]

/-- Models the Python standard library UTF-8 codec, one Unicode scalar
value at a time: the byte sequence `str.encode("UTF-8")` produces for a
character with code point `v`. -/
def utf8EncodeScalar (v : Nat) : List Nat :=
  if v < 0x80 then [v]
  else if v < 0x800 then [0xC0 + v / 64, 0x80 + v % 64]
  else if v < 0x10000 then [0xE0 + v / 4096, 0x80 + v / 64 % 64, 0x80 + v % 64]
  else [0xF0 + v / 262144, 0x80 + v / 4096 % 64, 0x80 + v / 64 % 64, 0x80 + v % 64]

/-- `str.encode("UTF-8")`: concatenate the encodings of the code points. -/
def utf8Encode (l : List Nat) : List Nat := l.flatMap utf8EncodeScalar

/-- Models one step of the Python standard library UTF-8 decoder
(`bytes.decode("UTF-8")`): decode one scalar from the front of the byte
list, rejecting stray continuation bytes, truncated or malformed
sequences, overlong encodings, surrogate code points and out-of-range
values; `none` where Python raises `UnicodeDecodeError`. -/
def utf8DecodeScalar : List Nat → Option (Nat × List Nat)
  | [] => none
  | b0 :: rest =>
    if b0 < 0x80 then some (b0, rest)
    else if b0 < 0xC0 then none
    else if b0 < 0xE0 then
      match rest with
      | b1 :: rest1 =>
        if 0x80 ≤ b1 ∧ b1 < 0xC0 then
          let v := (b0 - 0xC0) * 64 + (b1 - 0x80)
          if 0x80 ≤ v then some (v, rest1) else none
        else none
      | [] => none
    else if b0 < 0xF0 then
      match rest with
      | b1 :: b2 :: rest2 =>
        if (0x80 ≤ b1 ∧ b1 < 0xC0) ∧ (0x80 ≤ b2 ∧ b2 < 0xC0) then
          let v := (b0 - 0xE0) * 4096 + (b1 - 0x80) * 64 + (b2 - 0x80)
          if 0x800 ≤ v ∧ ¬(0xD800 ≤ v ∧ v < 0xE000) then some (v, rest2) else none
        else none
      | _ => none
    else if b0 < 0xF8 then
      match rest with
      | b1 :: b2 :: b3 :: rest3 =>
        if (0x80 ≤ b1 ∧ b1 < 0xC0) ∧ (0x80 ≤ b2 ∧ b2 < 0xC0) ∧ (0x80 ≤ b3 ∧ b3 < 0xC0) then
          let v := (b0 - 0xF0) * 262144 + (b1 - 0x80) * 4096 + (b2 - 0x80) * 64 + (b3 - 0x80)
          if 0x10000 ≤ v ∧ v < 0x110000 then some (v, rest3) else none
        else none
      | _ => none
    else none

/-- A successful scalar decode strictly shortens the byte list. -/
theorem utf8DecodeScalar_length : ∀ {l : List Nat} {v : Nat} {rest : List Nat},
    utf8DecodeScalar l = some (v, rest) → rest.length < l.length := by
  intro l v rest h
  cases l with
  | nil => simp [utf8DecodeScalar] at h
  | cons b0 t =>
    simp only [utf8DecodeScalar] at h
    split at h
    · cases h; simp
    · split at h
      · cases h
      · split at h
        · cases t with
          | nil => cases h
          | cons b1 t1 =>
            simp only at h
            split at h
            · split at h
              · cases h; simp; omega
              · cases h
            · cases h
        · split at h
          · match t with
            | [] => cases h
            | [b1] => cases h
            | b1 :: b2 :: t2 =>
              simp only at h
              split at h
              · split at h
                · cases h; simp; omega
                · cases h
              · cases h
          · split at h
            · match t with
              | [] => cases h
              | [b1] => cases h
              | [b1, b2] => cases h
              | b1 :: b2 :: b3 :: t3 =>
                simp only at h
                split at h
                · split at h
                  · cases h; simp; omega
                  · cases h
                · cases h
            · cases h



/-- `bytes.decode("UTF-8")`: decode scalars until the byte list is
exhausted; any malformed sequence fails the whole decode. -/
def utf8Decode : List Nat → Option (List Nat)
  | [] => some []
  | b :: t =>
    match h : utf8DecodeScalar (b :: t) with
    | some (v, rest) =>
      have : rest.length < (b :: t).length := utf8DecodeScalar_length h
      (utf8Decode rest).map (fun tail => v :: tail)
    | none => none
termination_by l => l.length

/-- Unfolding lemma: a successful leading scalar decode prepends its
scalar to the decode of the remaining bytes. -/
theorem utf8Decode_step {l : List Nat} {v : Nat} {rest : List Nat}
    (h : utf8DecodeScalar l = some (v, rest)) :
    utf8Decode l = (utf8Decode rest).map (fun tail => v :: tail) := by
  cases l with
  | nil => simp [utf8DecodeScalar] at h
  | cons b t =>
    rw [utf8Decode]
    split
    · rename_i v2 rest2 heq
      rw [h] at heq
      cases heq
      rfl
    · rename_i heq
      rw [h] at heq
      cases heq

/-- Every scalar encodes to at least one byte. -/
theorem utf8EncodeScalar_ne_nil (v : Nat) : utf8EncodeScalar v ≠ [] := by
  unfold utf8EncodeScalar
  split_ifs <;> simp

/-- Decoding inverts encoding on a single valid Unicode scalar value
(in range and not a surrogate), leaving trailing bytes untouched. -/
theorem utf8DecodeScalar_encode (v : Nat) (hv : v < 0x110000) (hs : v < 0xD800 ∨ 0xE000 ≤ v)
    (rest : List Nat) :
    utf8DecodeScalar (utf8EncodeScalar v ++ rest) = some (v, rest) := by
  unfold utf8EncodeScalar
  by_cases h1 : v < 0x80
  · simp only [h1, if_true, List.cons_append, List.nil_append]
    simp only [utf8DecodeScalar]
    rw [if_pos h1]
  · by_cases h2 : v < 0x800
    · simp only [h1, h2, if_true, if_false, List.cons_append, List.nil_append]
      simp only [utf8DecodeScalar]
      rw [if_neg (by omega), if_neg (by omega), if_pos (by omega)]
      rw [if_pos (by omega), if_pos (by omega)]
      simp only [Option.some.injEq, Prod.mk.injEq]
      exact ⟨by omega, trivial⟩
    · by_cases h3 : v < 0x10000
      · simp only [h1, h2, h3, if_true, if_false, List.cons_append, List.nil_append]
        simp only [utf8DecodeScalar]
        rw [if_neg (by omega), if_neg (by omega), if_neg (by omega), if_pos (by omega)]
        rw [if_pos (by constructor <;> omega), if_pos (by constructor <;> omega)]
        · simp only [Option.some.injEq, Prod.mk.injEq]
          exact ⟨by omega, trivial⟩
      · simp only [h1, h2, h3, if_false, List.cons_append, List.nil_append]
        simp only [utf8DecodeScalar]
        rw [if_neg (by omega), if_neg (by omega), if_neg (by omega), if_neg (by omega),
          if_pos (by omega)]
        rw [if_pos (by refine ⟨⟨by omega, by omega⟩, ⟨by omega, by omega⟩, by omega, by omega⟩),
          if_pos (by constructor <;> omega)]
        simp only [Option.some.injEq, Prod.mk.injEq]
        exact ⟨by omega, trivial⟩



/-- Round trip: decoding the UTF-8 encoding of a list of valid Unicode
scalar values returns exactly that list. -/
theorem utf8Decode_utf8Encode (l : List Nat)
    (h : ∀ v ∈ l, v < 0x110000 ∧ (v < 0xD800 ∨ 0xE000 ≤ v)) :
    utf8Decode (utf8Encode l) = some l := by
  induction l with
  | nil => simp [utf8Encode, utf8Decode]
  | cons v t ih =>
    have hv := h v (List.mem_cons_self v t)
    have henc : utf8Encode (v :: t) = utf8EncodeScalar v ++ utf8Encode t := by
      simp [utf8Encode]
    have hstep : utf8DecodeScalar (utf8EncodeScalar v ++ utf8Encode t)
        = some (v, utf8Encode t) :=
      utf8DecodeScalar_encode v hv.1 hv.2 (utf8Encode t)
    rw [henc, utf8Decode_step hstep, ih (fun w hw => h w (List.mem_cons_of_mem v hw))]
    rfl

/-- The two Python types `Session.run` accepts for the statement: a text
(unicode) string, given by its code points, or a byte string. -/
inductive PyStatement : Type
  | text (codepoints : List Nat)
  | bytes (bs : List Nat)
  deriving DecidableEq, Repr

/-- Lines 148–150 of `session.py`: ensure the statement is a Unicode
value — a `bytes` statement is decoded as UTF-8, a text statement is
passed through unchanged. -/
def ensureUnicode : PyStatement → Option (List Nat)
  | PyStatement.text s => some s
  | PyStatement.bytes b => utf8Decode b

/-- The RUN message built by `Session.run`: the (normalised) statement
text and the parameter map. -/
structure RunMessage : Type where
  statement : List Nat
  parameters : List (String × Value)
  deriving DecidableEq, Repr

/-- The RUN message `Session.run` sends for a given statement and
parameters: the statement is first normalised to text. -/
def runMessageOf (stmt : PyStatement) (params : List (String × Value)) : Option RunMessage :=
  (ensureUnicode stmt).map (fun s => { statement := s, parameters := params })

/-- The code points of a text string (every `Char` of a Lean `String` is
a valid Unicode scalar value, as is every character of a Python `str`
produced by UTF-8 decoding). -/
def pyCodePoints (s : String) : List Nat := s.data.map Char.toNat

/-- Code points of a string are in range and never surrogates. -/
theorem pyCodePoints_valid (s : String) :
    ∀ v ∈ pyCodePoints s, v < 0x110000 ∧ (v < 0xD800 ∨ 0xE000 ≤ v) := by
  intro v hv
  simp only [pyCodePoints, List.mem_map] at hv
  obtain ⟨c, _, rfl⟩ := hv
  have hvalid := c.valid
  simp only [UInt32.isValidChar, Nat.isValidChar] at hvalid
  simp only [Char.toNat]
  omega

/-- C9: a statement supplied as the UTF-8 encoding of a text statement
is decoded back to that text, so both forms produce the same RUN
message; a text statement is passed through unchanged into the RUN
message. -/
theorem run_statement_utf8_normalization (s : String) (params : List (String × Value)) :
    runMessageOf (PyStatement.bytes (utf8Encode (pyCodePoints s))) params
      = runMessageOf (PyStatement.text (pyCodePoints s)) params
    ∧ runMessageOf (PyStatement.text (pyCodePoints s)) params
      = some { statement := pyCodePoints s, parameters := params } := by
  constructor
  · simp [runMessageOf, ensureUnicode,
      utf8Decode_utf8Encode (pyCodePoints s) (pyCodePoints_valid s)]
  · rfl

end Neo4j
